import Mathlib

/-!
# Verification of the spartan-tpms implicit-field pipeline

A shallow embedding of the TPMS field-composition code
(`spartantpms/tpms/euler.py`, `spartantpms/tpms/gyroid.py`,
`spartantpms/tpms/diamond.py`, `spartantpms/optimization_functions.py`,
`spartantpms/stl/marching_cubes.py`) together with theorems settling the
specification's claims about it.

Python floats are modelled as real numbers; a Python function that can
raise is modelled as `Except PyErr`; `ValueError` and `TypeError` are the
two error conditions the embedded code can raise.  NumPy library routines
used by the code (`np.polyval`, `np.interp`, trigonometry) are modelled by
their documented mathematical semantics, as are the three operations of the
external `sdf` field library that the code composes with (`sdf.box`, `&` =
intersection = pointwise max, `-` = CSG difference = `max(a, -b)`).
-/

namespace SpartanTPMS

/-- The two Python exception kinds raised by the embedded code. -/
inductive PyErr where
  | valueError
  | typeError
deriving DecidableEq

/-- An implicit scalar field over 3D points, as in `sdf.d3.SDF3`: a pure
function from a point to a scalar. -/
abbrev SDF3 := (Fin 3 → ℝ) → ℝ

noncomputable section

/-- Models `np.polyval(constants, x)`: Horner evaluation of a polynomial
given its coefficients from highest degree to the constant term. -/
def polyval (constants : List ℝ) (x : ℝ) : ℝ :=
  constants.foldl (fun acc c => acc * x + c) 0

/-- Models `np.interp(x, xp, fp)` on the zipped node list `(xp, fp)` with
`xp` increasing: clamps to the end values outside the node range and
interpolates linearly between adjacent nodes inside it. -/
def interp (x : ℝ) : List (ℝ × ℝ) → ℝ
  | [] => 0
  | [(_, f0)] => f0
  | (x0, f0) :: (x1, f1) :: rest =>
    if x ≤ x0 then f0
    else if x ≤ x1 then f0 + (f1 - f0) * (x - x0) / (x1 - x0)
    else interp x ((x1, f1) :: rest)

/-- Models `np.deg2rad`. -/
def deg2rad (theta : ℝ) : ℝ := theta * Real.pi / 180

/-! ## `spartantpms/tpms/euler.py` -/

/-- `rotate_about_x(theta, degrees)` from `euler.py`. -/
def rotate_about_x (theta : ℝ) (degrees : Bool) : Matrix (Fin 3) (Fin 3) ℝ :=
  let t := if degrees then deg2rad theta else theta
  !![1, 0, 0;
     0, Real.cos t, -Real.sin t;
     0, Real.sin t, Real.cos t]

/-- `rotate_about_y(theta, degrees)` from `euler.py`. -/
def rotate_about_y (theta : ℝ) (degrees : Bool) : Matrix (Fin 3) (Fin 3) ℝ :=
  let t := if degrees then deg2rad theta else theta
  !![Real.cos t, 0, Real.sin t;
     0, 1, 0;
     -Real.sin t, 0, Real.cos t]

/-- `rotate_about_z(theta, degrees)` from `euler.py`. -/
def rotate_about_z (theta : ℝ) (degrees : Bool) : Matrix (Fin 3) (Fin 3) ℝ :=
  let t := if degrees then deg2rad theta else theta
  !![Real.cos t, -Real.sin t, 0;
     Real.sin t, Real.cos t, 0;
     0, 0, 1]

/-- `rotate_about_xyz(theta_x, theta_y, theta_z, degrees)` from `euler.py`:
converts the angles when `degrees` is set and forms the matrix product
`Rx @ Ry @ Rz`. -/
def rotate_about_xyz (theta_x theta_y theta_z : ℝ) (degrees : Bool) :
    Matrix (Fin 3) (Fin 3) ℝ :=
  let tx := if degrees then deg2rad theta_x else theta_x
  let ty := if degrees then deg2rad theta_y else theta_y
  let tz := if degrees then deg2rad theta_z else theta_z
  rotate_about_x tx false * rotate_about_y ty false * rotate_about_z tz false

/-! ## `spartantpms/tpms/gyroid.py` -/

/-- The fitted 9th-degree polynomial coefficients (highest degree first)
from `_gyroid_porosity_to_t_value` in `gyroid.py`. -/
def gyroid_polynomial_constants : List ℝ :=
  [-986.328589, 4438.58792, -8420.5786, 8758.29993, -5437.54382,
   2055.12365, -460.683827, 55.8905464, -5.79899099, 1.51588868]

/-- `_gyroid_porosity_to_t_value(porosity)` from `gyroid.py`: raises
`ValueError` when the porosity is outside `[0, 1]`, otherwise evaluates the
fitted polynomial with `np.polyval`. -/
def _gyroid_porosity_to_t_value (porosity : ℝ) : Except PyErr ℝ :=
  if porosity < 0 ∨ porosity > 1 then .error .valueError
  else .ok (polyval gyroid_polynomial_constants porosity)

/-- The inner field closure `f(p)` of `gyroid_function` in `gyroid.py`:
each coordinate is multiplied by its wavelength prefactor `2π/λ`, the
row-vector point is right-multiplied by the composed rotation matrix
(`p @ rotate_about_xyz(theta_x, theta_y, theta_z, degrees=True)`), and the
gyroid expression minus `t` is returned. -/
def gyroid_field (lambda_x lambda_y lambda_z theta_x theta_y theta_z t : ℝ) :
    SDF3 := fun p =>
  let q : Fin 3 → ℝ :=
    ![p 0 * (2 * Real.pi / lambda_x),
      p 1 * (2 * Real.pi / lambda_y),
      p 2 * (2 * Real.pi / lambda_z)]
  let r := Matrix.vecMul q (rotate_about_xyz theta_x theta_y theta_z true)
  Real.cos (r 0) * Real.sin (r 1) + Real.cos (r 1) * Real.sin (r 2) +
    Real.cos (r 2) * Real.sin (r 0) - t

/-- `gyroid_function` from `gyroid.py`: resolves the isovalue `t` from
either `porosity` or `isovalue` (raising `ValueError` when both are
supplied with a non-default porosity) and returns the gyroid field. -/
def gyroid_function (lambda_x lambda_y lambda_z theta_x theta_y theta_z
    porosity : ℝ) (isovalue : Option ℝ) : Except PyErr SDF3 :=
  match isovalue with
  | none =>
    match _gyroid_porosity_to_t_value porosity with
    | .error e => .error e
    | .ok t =>
      .ok (gyroid_field lambda_x lambda_y lambda_z theta_x theta_y theta_z t)
  | some v =>
    if porosity ≠ 0.5 then .error .valueError
    else .ok (gyroid_field lambda_x lambda_y lambda_z theta_x theta_y theta_z v)

/-- The `thickness_normalized` calibration nodes from
`_sheet_thickness_to_t_value` in `gyroid.py`. -/
def thickness_normalized : List ℝ :=
  [0.004, 0.012, 0.02, 0.028, 0.04, 0.048, 0.056, 0.064, 0.076, 0.084,
   0.092, 0.104, 0.112, 0.12, 0.132, 0.14, 0.152, 0.16, 0.172, 0.184,
   0.192, 0.204, 0.216, 0.228, 0.24, 0.252, 0.264, 0.276, 0.292, 0.308,
   0.324, 0.34, 0.36, 0.384, 0.412, 0.452, 0.52878729, 0.55713553,
   0.58060658, 0.60113226, 0.62096699, 0.64089937, 0.66020603, 0.67976467,
   0.69945121, 0.71929966, 0.74095074, 0.76459663, 0.79095891, 0.82341727,
   0.8830855]

/-- The `isovalues` calibration values from `_sheet_thickness_to_t_value`
in `gyroid.py`. -/
def isovalues : List ℝ :=
  [0.0001, 0.056598, 0.113096, 0.169594, 0.226092, 0.28259, 0.339088,
   0.395586, 0.452084, 0.508582, 0.56508, 0.621578, 0.678076, 0.734574,
   0.791072, 0.84757, 0.904068, 0.960566, 1.017064, 1.073562, 1.13006,
   1.186558, 1.243056, 1.299554, 1.356052, 1.41255, 1.469048, 1.525546,
   1.582044, 1.638542, 1.69504, 1.751538, 1.808036, 1.864534, 1.921032,
   1.97753, 2.034028, 2.090526, 2.147024, 2.203522, 2.26002, 2.316518,
   2.373016, 2.429514, 2.486012, 2.54251, 2.599008, 2.655506, 2.712004,
   2.768502, 2.825]

/-- `_sheet_thickness_to_t_value(thickness, lambda_xyz)` from `gyroid.py`:
raises `ValueError` unless the normalized thickness is strictly inside
`(0, 0.88)`, otherwise interpolates the calibration table with
`np.interp`. -/
def _sheet_thickness_to_t_value (thickness lambda_xyz : ℝ) : Except PyErr ℝ :=
  let t_norm := thickness / lambda_xyz
  if t_norm ≤ 0 ∨ t_norm ≥ 0.88 then .error .valueError
  else .ok (interp t_norm (thickness_normalized.zip isovalues))

/-- Models the CSG difference `a - b` of the external `sdf` library
(`sdf.d3`/`sdf.dn.difference` without smoothing): pointwise
`max(a(p), -b(p))`. -/
def sdf_difference (a b : SDF3) : SDF3 := fun p => max (a p) (-(b p))

/-- Models the boolean intersection `a & b` of the external `sdf` library
(`sdf.dn.intersection` without smoothing): pointwise `max(a(p), b(p))`. -/
def sdf_intersection (a b : SDF3) : SDF3 := fun p => max (a p) (b p)

/-- Models `sdf.box(size=(dx, dy, dz))` of the external `sdf` library: the
signed distance of the axis-aligned box of the given extents centered at
the origin. -/
def sdf_box (size : Fin 3 → ℝ) : SDF3 := fun p =>
  let q : Fin 3 → ℝ := fun i => |p i| - size i / 2
  Real.sqrt ((max (q 0) 0) ^ 2 + (max (q 1) 0) ^ 2 + (max (q 2) 0) ^ 2) +
    min (max (q 0) (max (q 1) (q 2))) 0

/-- The tail of `sheet_gyroid_function` in `gyroid.py` once an isovalue is
in hand (directly supplied or derived from `sheet_thickness`): checks that
it is positive and that `porosity` is still at its default, splits it in
half, and returns the CSG difference of the two offset gyroids
`gyroid_function(isovalue=+v/2) - gyroid_function(isovalue=-v/2)`. -/
def sheet_gyroid_from_isovalue (lambda_x lambda_y lambda_z theta_x theta_y
    theta_z porosity v : ℝ) : Except PyErr SDF3 :=
  if v ≤ 0 then .error .valueError
  else if porosity ≠ 0.5 then .error .valueError
  else
    let d_t := v / 2
    match gyroid_function lambda_x lambda_y lambda_z theta_x theta_y theta_z
        0.5 (some (-d_t)) with
    | .error e => .error e
    | .ok f_inner =>
      match gyroid_function lambda_x lambda_y lambda_z theta_x theta_y theta_z
          0.5 (some d_t) with
      | .error e => .error e
      | .ok f_outer => .ok (sdf_difference f_outer f_inner)

/-- `sheet_gyroid_function` from `gyroid.py`: with neither `isovalue` nor
`sheet_thickness` supplied it mirrors the porosity about `0.5` and takes
the CSG difference of the two gyroids; with both supplied it raises
`ValueError`; with only `sheet_thickness` it converts the thickness to an
isovalue using the average wavelength; any resolved isovalue then goes
through `sheet_gyroid_from_isovalue`. -/
def sheet_gyroid_function (lambda_x lambda_y lambda_z theta_x theta_y theta_z
    porosity : ℝ) (isovalue sheet_thickness : Option ℝ) : Except PyErr SDF3 :=
  match isovalue, sheet_thickness with
  | none, none =>
    let d_porosity := (1 - porosity) / 2
    match gyroid_function lambda_x lambda_y lambda_z theta_x theta_y theta_z
        (0.5 + d_porosity) none with
    | .error e => .error e
    | .ok f_inner =>
      match gyroid_function lambda_x lambda_y lambda_z theta_x theta_y theta_z
          (0.5 - d_porosity) none with
      | .error e => .error e
      | .ok f_outer => .ok (sdf_difference f_outer f_inner)
  | some _, some _ => .error .valueError
  | none, some th =>
    match _sheet_thickness_to_t_value th
        ((lambda_x + lambda_y + lambda_z) / 3) with
    | .error e => .error e
    | .ok v =>
      sheet_gyroid_from_isovalue lambda_x lambda_y lambda_z theta_x theta_y
        theta_z porosity v
  | some v, none =>
    sheet_gyroid_from_isovalue lambda_x lambda_y lambda_z theta_x theta_y
      theta_z porosity v

/-- The condition under which `sheet_gyroid_function` emits its (non-fatal)
anisotropy warning: the `sheet_thickness` branch is entered (no `isovalue`,
a `sheet_thickness`) and the three wavelengths are not all equal. -/
def sheet_gyroid_emits_anisotropy_warning (lambda_x lambda_y lambda_z : ℝ)
    (isovalue sheet_thickness : Option ℝ) : Prop :=
  isovalue = none ∧ sheet_thickness ≠ none ∧
    (lambda_x ≠ lambda_y ∨ lambda_x ≠ lambda_z ∨ lambda_y ≠ lambda_z)

/-! ## `spartantpms/tpms/diamond.py` -/

/-- The `POROSITY` module constant of `diamond.py`: the listed values,
reversed (`[::-1]`) so that they ascend from 0 to 1. -/
def POROSITY : List ℝ :=
  [1.0, 0.99726682, 0.99099292, 0.98260702, 0.97316512, 0.96080369,
   0.94682719, 0.92794339, 0.90347675, 0.879938, 0.85341759, 0.82876072,
   0.80354479, 0.77733497, 0.75664976, 0.72975664, 0.70963049, 0.68292373,
   0.66391569, 0.63714681, 0.61627524, 0.59105931, 0.57000139, 0.54348098,
   0.52335483, 0.5022804, 0.47664517, 0.45651902, 0.42999861, 0.40894069,
   0.38372476, 0.36285319, 0.33608431, 0.31707627, 0.29036951, 0.27024336,
   0.24335024, 0.22266503, 0.19645521, 0.17123928, 0.14658241, 0.120062,
   0.09652325, 0.07205661, 0.05317281, 0.03919631, 0.02683488, 0.01739298,
   0.00900708, 0.00273318, 0.0].reverse

/-- The `DIAMOND_T_VALUE` module constant of `diamond.py`: the listed
values, reversed (`[::-1]`) so that they descend from `+√2` to `-√2`. -/
def DIAMOND_T_VALUE : List ℝ :=
  [-1.41421356, -1.35764502, -1.30107648, -1.24450793, -1.18793939,
   -1.13137085, -1.07480231, -1.01823376, -0.96166522, -0.90509668,
   -0.84852814, -0.79195959, -0.73539105, -0.67882251, -0.62225397,
   -0.56568542, -0.50911688, -0.45254834, -0.3959798, -0.33941125,
   -0.28284271, -0.22627417, -0.16970563, -0.11313708, -0.05656854, 0.0,
   0.05656854, 0.11313708, 0.16970563, 0.22627417, 0.28284271, 0.33941125,
   0.3959798, 0.45254834, 0.50911688, 0.56568542, 0.62225397, 0.67882251,
   0.73539105, 0.79195959, 0.84852814, 0.90509668, 0.96166522, 1.01823376,
   1.07480231, 1.13137085, 1.18793939, 1.24450793, 1.30107648, 1.35764502,
   1.41421356].reverse

/-- `_diamond_porosity_to_t_value(porosity)` from `diamond.py`:
`np.interp(porosity, POROSITY, DIAMOND_T_VALUE)` with no range check of
its own. -/
def _diamond_porosity_to_t_value (porosity : ℝ) : ℝ :=
  interp porosity (POROSITY.zip DIAMOND_T_VALUE)

/-- `diamond_function` from `diamond.py`: resolves `t` from the porosity
table and returns the diamond field, whose coordinates are each scaled by
`2π/λ` — with no rotation step and no rotation parameters. -/
def diamond_function (lambda_x lambda_y lambda_z porosity : ℝ) : SDF3 :=
  let t := _diamond_porosity_to_t_value porosity
  fun p =>
    let x := 2 * Real.pi / lambda_x * p 0
    let y := 2 * Real.pi / lambda_y * p 1
    let z := 2 * Real.pi / lambda_z * p 2
    Real.sin x * Real.sin y * Real.sin z + Real.sin x * Real.cos y * Real.cos z +
      Real.cos x * Real.sin y * Real.cos z + Real.cos x * Real.cos y * Real.sin z - t

/-- Restatement of the specification's description of the diamond
evaluator, for comparison with `diamond_function`.  Modelled from the
spec's words, not from the code: the input coordinates are "each scaled by
`2π/λ_axis` and then rotated by the composed rotation matrix built from
`(θx, θy, θz)` — the same coordinate preprocessing (scaling then rotation)
as the gyroid evaluator" before the diamond expression minus `t` is
evaluated. -/
def diamond_spec_field (lambda_x lambda_y lambda_z theta_x theta_y theta_z
    t : ℝ) : SDF3 := fun p =>
  let q : Fin 3 → ℝ :=
    ![p 0 * (2 * Real.pi / lambda_x),
      p 1 * (2 * Real.pi / lambda_y),
      p 2 * (2 * Real.pi / lambda_z)]
  let r := Matrix.vecMul q (rotate_about_xyz theta_x theta_y theta_z true)
  Real.sin (r 0) * Real.sin (r 1) * Real.sin (r 2) +
    Real.sin (r 0) * Real.cos (r 1) * Real.cos (r 2) +
    Real.cos (r 0) * Real.sin (r 1) * Real.cos (r 2) +
    Real.cos (r 0) * Real.cos (r 1) * Real.sin (r 2) - t

/-! ## `spartantpms/optimization_functions.py` -/

/-- The `n_periods` argument of the box composers: a single Python int or
a tuple of ints, the two shapes their `isinstance` dispatch handles. -/
inductive NPeriods where
  | int (n : ℤ)
  | tuple (l : List ℤ)

/-- The `n_periods` normalization shared by `gyroid_box`, `diamond_box`
and `sheet_gyroid_box`: a single integer is broadcast to all three axes, a
tuple must have length 3 (`ValueError` otherwise). -/
def n_periods_normalize : NPeriods → Except PyErr (ℤ × ℤ × ℤ)
  | .int n => .ok (n, n, n)
  | .tuple l =>
    if l.length = 3 then .ok (l.getD 0 0, l.getD 1 0, l.getD 2 0)
    else .error .valueError

/-- `gyroid_box` from `optimization_functions.py`: normalizes `n_periods`,
builds the gyroid infill, and intersects it with a box of size
`(λx·nx, λy·ny, λz·nz)`. -/
def gyroid_box (lambda_x lambda_y lambda_z theta_x theta_y theta_z
    porosity : ℝ) (n_periods : NPeriods) : Except PyErr SDF3 :=
  match n_periods_normalize n_periods with
  | .error e => .error e
  | .ok (nx, ny, nz) =>
    let dx := lambda_x * nx
    let dy := lambda_y * ny
    let dz := lambda_z * nz
    match gyroid_function lambda_x lambda_y lambda_z theta_x theta_y theta_z
        porosity none with
    | .error e => .error e
    | .ok infill => .ok (sdf_intersection (sdf_box ![dx, dy, dz]) infill)

/-- The parameter names accepted by `diamond_function` in `diamond.py`. -/
def diamond_function_params : List String :=
  ["lambda_x", "lambda_y", "lambda_z", "porosity"]

/-- The keyword-argument names `diamond_box` passes in its call to
`diamond_function` in `optimization_functions.py`. -/
def diamond_box_call_kwargs : List String :=
  ["lambda_x", "lambda_y", "lambda_z", "theta_x", "theta_y", "theta_z",
   "porosity"]

/-- `diamond_box` from `optimization_functions.py`: normalizes
`n_periods`, then calls `diamond_function` with its keyword arguments.
Per Python call semantics the call raises `TypeError` when any forwarded
keyword is not among the callee's parameters; only then would the field be
built and intersected with the box. -/
def diamond_box (lambda_x lambda_y lambda_z theta_x theta_y theta_z
    porosity : ℝ) (n_periods : NPeriods) : Except PyErr SDF3 :=
  match n_periods_normalize n_periods with
  | .error e => .error e
  | .ok (nx, ny, nz) =>
    let dx := lambda_x * nx
    let dy := lambda_y * ny
    let dz := lambda_z * nz
    if diamond_box_call_kwargs.all (fun k => diamond_function_params.contains k) then
      .ok (sdf_intersection (sdf_box ![dx, dy, dz])
        (diamond_function lambda_x lambda_y lambda_z porosity))
    else .error .typeError

/-- `sheet_gyroid_box` from `optimization_functions.py`: normalizes
`n_periods`, builds the sheet-gyroid infill (porosity control only), and
intersects it with a box of size `(λx·nx, λy·ny, λz·nz)`. -/
def sheet_gyroid_box (lambda_x lambda_y lambda_z theta_x theta_y theta_z
    porosity : ℝ) (n_periods : NPeriods) : Except PyErr SDF3 :=
  match n_periods_normalize n_periods with
  | .error e => .error e
  | .ok (nx, ny, nz) =>
    let dx := lambda_x * nx
    let dy := lambda_y * ny
    let dz := lambda_z * nz
    match sheet_gyroid_function lambda_x lambda_y lambda_z theta_x theta_y
        theta_z porosity none none with
    | .error e => .error e
    | .ok infill => .ok (sdf_intersection (sdf_box ![dx, dy, dz]) infill)

/-! ## `spartantpms/stl/marching_cubes.py` -/

/-- Models `sdf.mesh._cartesian_product(X, Y, Z)`: the points of the grid
in C order (the first axis varies slowest, the last axis fastest), indexed
as `X[m / (ny·nz)], Y[(m / nz) % ny], Z[m % nz]`. -/
def cartesian_product (X Y Z : List ℝ) : List (Fin 3 → ℝ) :=
  (List.range (X.length * Y.length * Z.length)).map fun m =>
    ![X.getD (m / (Y.length * Z.length)) 0,
      Y.getD (m / Z.length % Y.length) 0,
      Z.getD (m % Z.length) 0]

/-- `Fxyz = -f(P)` in `marching_cubes`: the field evaluated at the grid
points in their natural (C) evaluation order, negated because the
extraction routine expects the solid interior to be positive. -/
def mc_scalar_values (f : SDF3) (X Y Z : List ℝ) : List ℝ :=
  (cartesian_product X Y Z).map fun p => -(f p)

/-- Models `arr.reshape((nx, ny, nz)).reshape(-1, order="F")` applied to a
flat C-ordered array: entry `m` of the result is the C-ordered entry at
multi-index `(m % nx, (m / nx) % ny, m / (nx·ny))`, so the first axis
varies fastest in the output. -/
def fortran_flatten (vals : List ℝ) (nx ny nz : ℕ) : List ℝ :=
  (List.range (nx * ny * nz)).map fun m =>
    vals.getD (m % nx * (ny * nz) + m / nx % ny * nz + m / (nx * ny)) 0

/-- The flattened scalar array `marching_cubes` hands to
`PyScaffolder.marching_cubes`: the negated field samples, explicitly
reordered from C order to Fortran order. -/
def mc_scalar_array (f : SDF3) (X Y Z : List ℝ) : List ℝ :=
  fortran_flatten (mc_scalar_values f X Y Z) X.length Y.length Z.length

end

/-! ## Shared helper lemmas -/

lemma vecMul_three (v : Fin 3 → ℝ) (M : Matrix (Fin 3) (Fin 3) ℝ) (j : Fin 3) :
    Matrix.vecMul v M j = v 0 * M 0 j + v 1 * M 1 j + v 2 * M 2 j := by
  simp [Matrix.vecMul, Matrix.dotProduct, Fin.sum_univ_three]

lemma rotate_about_xyz_zero : rotate_about_xyz 0 0 0 true = 1 := by
  have h0 : deg2rad 0 = 0 := by simp [deg2rad]
  simp only [rotate_about_xyz, rotate_about_x, rotate_about_y, rotate_about_z,
    if_true, h0]
  norm_num
  ext i j
  fin_cases i <;> fin_cases j <;>
    simp [Matrix.one_apply, Matrix.vecHead, Matrix.vecTail]

lemma rotate_about_xyz_z90 :
    rotate_about_xyz 0 0 90 true = !![0, -1, 0; 1, 0, 0; 0, 0, 1] := by
  have h0 : deg2rad 0 = 0 := by simp [deg2rad]
  have h90 : deg2rad 90 = Real.pi / 2 := by rw [deg2rad]; ring
  simp only [rotate_about_xyz, rotate_about_x, rotate_about_y, rotate_about_z,
    if_true, h0, h90]
  norm_num

/-! ## C1 — the diamond evaluator's coordinate preprocessing -/

/-- C1 (counterexample): the diamond evaluator does NOT apply the composed
rotation: at wavelengths `2π`, porosity `0.5`, point `(π/2, 0, 0)` and the
rotation request `(θx, θy, θz) = (0, 0, 90)`, the code's field value
(`1 - t`) differs from the spec's scale-then-rotate formula (`-1 - t`). -/
theorem c1_counterexample :
    diamond_function (2 * Real.pi) (2 * Real.pi) (2 * Real.pi) 0.5
        ![Real.pi / 2, 0, 0] ≠
      diamond_spec_field (2 * Real.pi) (2 * Real.pi) (2 * Real.pi) 0 0 90
        (_diamond_porosity_to_t_value 0.5) ![Real.pi / 2, 0, 0] := by
  have hL : 2 * Real.pi / (2 * Real.pi) = 1 := div_self (by positivity)
  have hcode : diamond_function (2 * Real.pi) (2 * Real.pi) (2 * Real.pi) 0.5
      ![Real.pi / 2, 0, 0] = 1 - _diamond_porosity_to_t_value 0.5 := by
    simp only [diamond_function]
    norm_num [hL]
  have hspec : diamond_spec_field (2 * Real.pi) (2 * Real.pi) (2 * Real.pi) 0 0 90
      (_diamond_porosity_to_t_value 0.5) ![Real.pi / 2, 0, 0] =
      -1 - _diamond_porosity_to_t_value 0.5 := by
    simp only [diamond_spec_field, rotate_about_xyz_z90]
    norm_num [vecMul_three, hL]
  rw [hcode, hspec]
  intro h
  have h2 : (1 : ℝ) = -1 := by linarith
  norm_num at h2

/-- C1 (amended): the diamond evaluator scales each coordinate by
`2π/λ_axis` exactly as the gyroid evaluator does, but applies no rotation
at all (it has no rotation parameters): it agrees with the spec's
scale-then-rotate formula only at the identity rotation
`(θx, θy, θz) = (0, 0, 0)`. -/
theorem c1_diamond_field_no_rotation (lambda_x lambda_y lambda_z porosity : ℝ)
    (p : Fin 3 → ℝ) :
    diamond_function lambda_x lambda_y lambda_z porosity p =
      diamond_spec_field lambda_x lambda_y lambda_z 0 0 0
        (_diamond_porosity_to_t_value porosity) p := by
  simp only [diamond_function, diamond_spec_field, rotate_about_xyz_zero,
    Matrix.vecMul_one]
  norm_num
  ring_nf

/-! ## C9 — rotation composition order and row-vector application -/

/-- C9: the composed rotation matrix is the product `Rx · Ry · Rz` of the
standard single-axis rotation matrices, each with its angle converted from
degrees to radians, and the gyroid field evaluator applies it by
right-multiplying the row-vector point: `P' = P · R`. -/
theorem c9_rotation_composition :
    (∀ theta_x theta_y theta_z : ℝ,
      rotate_about_xyz theta_x theta_y theta_z true =
        !![1, 0, 0;
           0, Real.cos (theta_x * Real.pi / 180), -Real.sin (theta_x * Real.pi / 180);
           0, Real.sin (theta_x * Real.pi / 180), Real.cos (theta_x * Real.pi / 180)] *
        !![Real.cos (theta_y * Real.pi / 180), 0, Real.sin (theta_y * Real.pi / 180);
           0, 1, 0;
           -Real.sin (theta_y * Real.pi / 180), 0, Real.cos (theta_y * Real.pi / 180)] *
        !![Real.cos (theta_z * Real.pi / 180), -Real.sin (theta_z * Real.pi / 180), 0;
           Real.sin (theta_z * Real.pi / 180), Real.cos (theta_z * Real.pi / 180), 0;
           0, 0, 1]) ∧
    (∀ lambda_x lambda_y lambda_z theta_x theta_y theta_z t : ℝ,
      ∀ p : Fin 3 → ℝ,
      gyroid_field lambda_x lambda_y lambda_z theta_x theta_y theta_z t p =
        (let q : Fin 3 → ℝ :=
          ![p 0 * (2 * Real.pi / lambda_x),
            p 1 * (2 * Real.pi / lambda_y),
            p 2 * (2 * Real.pi / lambda_z)]
         let r := Matrix.vecMul q (rotate_about_xyz theta_x theta_y theta_z true)
         Real.cos (r 0) * Real.sin (r 1) + Real.cos (r 1) * Real.sin (r 2) +
           Real.cos (r 2) * Real.sin (r 0) - t)) := by
  constructor
  · intro theta_x theta_y theta_z
    simp [rotate_about_xyz, rotate_about_x, rotate_about_y, rotate_about_z,
      deg2rad]
  · intro lambda_x lambda_y lambda_z theta_x theta_y theta_z t p
    rfl

/-! ## Interpolation lemmas

General facts about the `np.interp` model used by the diamond and
sheet-thickness calibration tables. -/

lemma interp_le_first (x x0 f0 : ℝ) (tail : List (ℝ × ℝ)) (hx : x ≤ x0) :
    interp x ((x0, f0) :: tail) = f0 := by
  cases tail with
  | nil => rfl
  | cons b t =>
    obtain ⟨x1, f1⟩ := b
    rw [interp, if_pos hx]

lemma interp_cons_segment (x x0 f0 x1 f1 : ℝ) (rest : List (ℝ × ℝ))
    (h0 : ¬ x ≤ x0) (h1 : x ≤ x1) :
    interp x ((x0, f0) :: (x1, f1) :: rest) =
      f0 + (f1 - f0) * (x - x0) / (x1 - x0) := by
  rw [interp, if_neg h0, if_pos h1]

lemma interp_cons_tail (x x0 f0 x1 f1 : ℝ) (rest : List (ℝ × ℝ))
    (h0 : ¬ x ≤ x0) (h1 : ¬ x ≤ x1) :
    interp x ((x0, f0) :: (x1, f1) :: rest) = interp x ((x1, f1) :: rest) := by
  rw [interp, if_neg h0, if_neg h1]

/-- With increasing nodes and non-increasing values, interpolation never
exceeds the first value. -/
lemma interp_le_head : ∀ (L : List (ℝ × ℝ)) (x0 f0 : ℝ),
    List.Chain' (fun u v : ℝ × ℝ => u.1 < v.1) ((x0, f0) :: L) →
    List.Chain' (fun u v : ℝ × ℝ => v.2 ≤ u.2) ((x0, f0) :: L) →
    ∀ x : ℝ, interp x ((x0, f0) :: L) ≤ f0
  | [], x0, f0, _, _, x => le_of_eq (by rw [interp])
  | (x1, f1) :: rest, x0, f0, hx, hf, x => by
    have hx01 : x0 < x1 := (List.chain'_cons.mp hx).1
    have hxt := (List.chain'_cons.mp hx).2
    have hf01 : f1 ≤ f0 := (List.chain'_cons.mp hf).1
    have hft := (List.chain'_cons.mp hf).2
    by_cases h0 : x ≤ x0
    · rw [interp_le_first x x0 f0 _ h0]
    · by_cases h1 : x ≤ x1
      · rw [interp_cons_segment x x0 f0 x1 f1 rest h0 h1]
        have hnum : (f1 - f0) * (x - x0) ≤ 0 :=
          mul_nonpos_of_nonpos_of_nonneg (by linarith) (by linarith)
        have hdiv : (f1 - f0) * (x - x0) / (x1 - x0) ≤ 0 :=
          div_nonpos_of_nonpos_of_nonneg hnum (by linarith)
        linarith
      · rw [interp_cons_tail x x0 f0 x1 f1 rest h0 h1]
        exact le_trans (interp_le_head rest x1 f1 hxt hft x) hf01

/-- Linear interpolation over strictly increasing nodes with
non-increasing values is antitone (including the clamped regions). -/
lemma interp_anti : ∀ (L : List (ℝ × ℝ)),
    List.Chain' (fun u v : ℝ × ℝ => u.1 < v.1) L →
    List.Chain' (fun u v : ℝ × ℝ => v.2 ≤ u.2) L →
    ∀ a b : ℝ, a ≤ b → interp b L ≤ interp a L
  | [], _, _, a, b, _ => le_refl _
  | [(x0, f0)], _, _, a, b, _ => le_refl _
  | (x0, f0) :: (x1, f1) :: rest, hx, hf, a, b, hab => by
    have hx01 : x0 < x1 := (List.chain'_cons.mp hx).1
    have hxt := (List.chain'_cons.mp hx).2
    have hf01 : f1 ≤ f0 := (List.chain'_cons.mp hf).1
    have hft := (List.chain'_cons.mp hf).2
    by_cases hb0 : b ≤ x0
    · rw [interp_le_first b x0 f0 _ hb0,
        interp_le_first a x0 f0 _ (le_trans hab hb0)]
    · by_cases hb1 : b ≤ x1
      · rw [interp_cons_segment b x0 f0 x1 f1 rest hb0 hb1]
        by_cases ha0 : a ≤ x0
        · rw [interp_le_first a x0 f0 _ ha0]
          have hnum : (f1 - f0) * (b - x0) ≤ 0 :=
            mul_nonpos_of_nonpos_of_nonneg (by linarith) (by linarith)
          have hdiv : (f1 - f0) * (b - x0) / (x1 - x0) ≤ 0 :=
            div_nonpos_of_nonpos_of_nonneg hnum (by linarith)
          linarith
        · rw [interp_cons_segment a x0 f0 x1 f1 rest ha0 (le_trans hab hb1)]
          have hkey : (f1 - f0) * (b - x0) / (x1 - x0) -
              (f1 - f0) * (a - x0) / (x1 - x0) =
              (f1 - f0) * (b - a) / (x1 - x0) := by
            rw [div_sub_div_same]; ring_nf
          have hnum : (f1 - f0) * (b - a) ≤ 0 :=
            mul_nonpos_of_nonpos_of_nonneg (by linarith) (by linarith)
          have hdiv : (f1 - f0) * (b - a) / (x1 - x0) ≤ 0 :=
            div_nonpos_of_nonpos_of_nonneg hnum (by linarith)
          linarith
      · rw [interp_cons_tail b x0 f0 x1 f1 rest hb0 hb1]
        by_cases ha0 : a ≤ x0
        · rw [interp_le_first a x0 f0 _ ha0]
          exact le_trans (interp_le_head rest x1 f1 hxt hft b) hf01
        · by_cases ha1 : a ≤ x1
          · rw [interp_cons_segment a x0 f0 x1 f1 rest ha0 ha1]
            have hhead : interp b ((x1, f1) :: rest) ≤ f1 :=
              interp_le_head rest x1 f1 hxt hft b
            have ht1 : (a - x0) / (x1 - x0) ≤ 1 :=
              (div_le_one (by linarith)).mpr (by linarith)
            have hmul : (f1 - f0) * 1 ≤ (f1 - f0) * ((a - x0) / (x1 - x0)) :=
              mul_le_mul_of_nonpos_left ht1 (by linarith)
            rw [mul_div_assoc]
            linarith
          · rw [interp_cons_tail a x0 f0 x1 f1 rest ha0 ha1]
            exact interp_anti ((x1, f1) :: rest) hxt hft a b hab

/-- Above every node, interpolation clamps to the last value. -/
lemma interp_above (x : ℝ) : ∀ (L : List (ℝ × ℝ)) (x0 f0 xl fl : ℝ),
    (∀ u ∈ (x0, f0) :: L, u.1 < x) →
    ((x0, f0) :: L).getLast (by simp) = (xl, fl) →
    interp x ((x0, f0) :: L) = fl
  | [], x0, f0, xl, fl, _, hlast => by
    simp only [List.getLast_singleton] at hlast
    rw [interp]
    exact congrArg Prod.snd hlast
  | (x1, f1) :: rest, x0, f0, xl, fl, hmem, hlast => by
    have h0 : x0 < x := hmem (x0, f0) (by simp)
    have h1 : x1 < x := hmem (x1, f1) (by simp)
    rw [interp_cons_tail x x0 f0 x1 f1 rest (by linarith) (by linarith)]
    refine interp_above x rest x1 f1 xl fl ?_ ?_
    · intro u hu
      exact hmem u (List.mem_cons_of_mem _ hu)
    · rw [← hlast]
      exact (List.getLast_cons (by simp)).symm

/-! ## The diamond calibration table, in explicit zipped form -/

/-- The node list `zip(POROSITY, DIAMOND_T_VALUE)` written out: ascending
porosities paired with descending t-values. -/
noncomputable def diamond_table_pairs : List (ℝ × ℝ) :=
  [(0.0, 1.41421356), (0.00273318, 1.35764502), (0.00900708, 1.30107648),
   (0.01739298, 1.24450793), (0.02683488, 1.18793939),
   (0.03919631, 1.13137085), (0.05317281, 1.07480231),
   (0.07205661, 1.01823376), (0.09652325, 0.96166522),
   (0.120062, 0.90509668), (0.14658241, 0.84852814),
   (0.17123928, 0.79195959), (0.19645521, 0.73539105),
   (0.22266503, 0.67882251), (0.24335024, 0.62225397),
   (0.27024336, 0.56568542), (0.29036951, 0.50911688),
   (0.31707627, 0.45254834), (0.33608431, 0.3959798),
   (0.36285319, 0.33941125), (0.38372476, 0.28284271),
   (0.40894069, 0.22627417), (0.42999861, 0.16970563),
   (0.45651902, 0.11313708), (0.47664517, 0.05656854), (0.5022804, 0.0),
   (0.52335483, -0.05656854), (0.54348098, -0.11313708),
   (0.57000139, -0.16970563), (0.59105931, -0.22627417),
   (0.61627524, -0.28284271), (0.63714681, -0.33941125),
   (0.66391569, -0.3959798), (0.68292373, -0.45254834),
   (0.70963049, -0.50911688), (0.72975664, -0.56568542),
   (0.75664976, -0.62225397), (0.77733497, -0.67882251),
   (0.80354479, -0.73539105), (0.82876072, -0.79195959),
   (0.85341759, -0.84852814), (0.879938, -0.90509668),
   (0.90347675, -0.96166522), (0.92794339, -1.01823376),
   (0.94682719, -1.07480231), (0.96080369, -1.13137085),
   (0.97316512, -1.18793939), (0.98260702, -1.24450793),
   (0.99099292, -1.30107648), (0.99726682, -1.35764502), (1.0, -1.41421356)]

lemma diamond_table_eq : POROSITY.zip DIAMOND_T_VALUE = diamond_table_pairs := by
  rfl

set_option maxHeartbeats 1000000 in
lemma diamond_table_x_chain :
    List.Chain' (fun u v : ℝ × ℝ => u.1 < v.1) diamond_table_pairs := by
  simp only [diamond_table_pairs, List.chain'_cons, List.chain'_singleton, and_true]
  norm_num

set_option maxHeartbeats 1000000 in
lemma diamond_table_f_chain :
    List.Chain' (fun u v : ℝ × ℝ => v.2 ≤ u.2) diamond_table_pairs := by
  simp only [diamond_table_pairs, List.chain'_cons, List.chain'_singleton, and_true]
  norm_num

set_option maxHeartbeats 1000000 in
lemma diamond_table_x_le_one : ∀ u ∈ diamond_table_pairs, u.1 ≤ 1 := by
  intro u hu
  fin_cases hu <;> norm_num

/-! ## The gyroid calibration polynomial is antitone on [0, 1] -/

lemma gyroid_polyval_expand :
    (fun x : ℝ => polyval gyroid_polynomial_constants x) =
      (fun x : ℝ => (-986.328589) * x ^ 9 + 4438.58792 * x ^ 8 +
        (-8420.5786) * x ^ 7 + 8758.29993 * x ^ 6 + (-5437.54382) * x ^ 5 +
        2055.12365 * x ^ 4 + (-460.683827) * x ^ 3 + 55.8905464 * x ^ 2 +
        (-5.79899099) * x ^ 1 + 1.51588868) := by
  funext x
  simp only [polyval, gyroid_polynomial_constants, List.foldl]
  ring

/-- The derivative of the gyroid calibration polynomial. -/
noncomputable def gyroid_poly_deriv (x : ℝ) : ℝ :=
  (-8876.957301) * x ^ 8 + 35508.70336 * x ^ 7 + (-58944.0502) * x ^ 6 +
    52549.79958 * x ^ 5 + (-27187.7191) * x ^ 4 + 8220.4946 * x ^ 3 +
    (-1382.051481) * x ^ 2 + 111.7810928 * x + (-5.79899099)

lemma gyroid_hasDerivAt (x : ℝ) :
    HasDerivAt (fun y : ℝ => polyval gyroid_polynomial_constants y)
      (gyroid_poly_deriv x) x := by
  rw [gyroid_polyval_expand]
  have h9 := (hasDerivAt_pow 9 x).const_mul (-986.328589 : ℝ)
  have h8 := (hasDerivAt_pow 8 x).const_mul (4438.58792 : ℝ)
  have h7 := (hasDerivAt_pow 7 x).const_mul (-8420.5786 : ℝ)
  have h6 := (hasDerivAt_pow 6 x).const_mul (8758.29993 : ℝ)
  have h5 := (hasDerivAt_pow 5 x).const_mul (-5437.54382 : ℝ)
  have h4 := (hasDerivAt_pow 4 x).const_mul (2055.12365 : ℝ)
  have h3 := (hasDerivAt_pow 3 x).const_mul (-460.683827 : ℝ)
  have h2 := (hasDerivAt_pow 2 x).const_mul (55.8905464 : ℝ)
  have h1 := (hasDerivAt_pow 1 x).const_mul (-5.79899099 : ℝ)
  have hc := hasDerivAt_const x (1.51588868 : ℝ)
  have H := ((((((((h9.add h8).add h7).add h6).add h5).add h4).add h3).add
    h2).add h1).add hc
  convert H using 1
  unfold gyroid_poly_deriv
  push_cast
  ring

/-- Exact-arithmetic certificate: the derivative polynomial, written in the
degree-20 Bernstein basis on `[0, 1]`, has all coefficients negative, so it
is nonpositive on the interval. -/
lemma gyroid_deriv_nonpos {x : ℝ} (h0 : 0 ≤ x) (h1 : x ≤ 1) :
    gyroid_poly_deriv x ≤ 0 := by
  have hy : (0:ℝ) ≤ 1 - x := by linarith
  have key : gyroid_poly_deriv x =
      (-5.79899099) * (1 - x) ^ 20 +
      (-4.198727) * (x ^ 1 * (1 - x) ^ 19) +
      (-360.0190059) * (x ^ 2 * (1 - x) ^ 18) +
      (-4152.7149178) * (x ^ 3 * (1 - x) ^ 17) +
      (-18673.41991635) * (x ^ 4 * (1 - x) ^ 16) +
      (-48864.48953216) * (x ^ 5 * (1 - x) ^ 15) +
      (-97342.896054) * (x ^ 6 * (1 - x) ^ 14) +
      (-190434.8524432) * (x ^ 7 * (1 - x) ^ 13) +
      (-368718.6344089) * (x ^ 8 * (1 - x) ^ 12) +
      (-588884.6328468) * (x ^ 9 * (1 - x) ^ 11) +
      (-694504.99863404) * (x ^ 10 * (1 - x) ^ 10) +
      (-588959.826542) * (x ^ 11 * (1 - x) ^ 9) +
      (-368805.2285737) * (x ^ 12 * (1 - x) ^ 8) +
      (-190481.1378144) * (x ^ 13 * (1 - x) ^ 7) +
      (-97350.7904708) * (x ^ 14 * (1 - x) ^ 6) +
      (-48859.86217056) * (x ^ 15 * (1 - x) ^ 5) +
      (-18670.52660875) * (x ^ 16 * (1 - x) ^ 4) +
      (-4152.2564614) * (x ^ 17 * (1 - x) ^ 3) +
      (-360.0764983) * (x ^ 18 * (1 - x) ^ 2) +
      (-4.2161466) * (x ^ 19 * (1 - x) ^ 1) +
      (-5.79844019) * x ^ 20 := by
    unfold gyroid_poly_deriv
    ring
  have hxy : ∀ i j : ℕ, (0:ℝ) ≤ x ^ i * (1 - x) ^ j := fun i j =>
    mul_nonneg (pow_nonneg h0 i) (pow_nonneg hy j)
  have hB : ∀ c : ℝ, c ≤ 0 → ∀ i j : ℕ, c * (x ^ i * (1 - x) ^ j) ≤ 0 :=
    fun c hc i j => mul_nonpos_of_nonpos_of_nonneg hc (hxy i j)
  have t00 : (-5.79899099 : ℝ) * (1 - x) ^ 20 ≤ 0 :=
    mul_nonpos_of_nonpos_of_nonneg (by norm_num) (pow_nonneg hy 20)
  have t01 := hB (-4.198727) (by norm_num) 1 19
  have t02 := hB (-360.0190059) (by norm_num) 2 18
  have t03 := hB (-4152.7149178) (by norm_num) 3 17
  have t04 := hB (-18673.41991635) (by norm_num) 4 16
  have t05 := hB (-48864.48953216) (by norm_num) 5 15
  have t06 := hB (-97342.896054) (by norm_num) 6 14
  have t07 := hB (-190434.8524432) (by norm_num) 7 13
  have t08 := hB (-368718.6344089) (by norm_num) 8 12
  have t09 := hB (-588884.6328468) (by norm_num) 9 11
  have t10 := hB (-694504.99863404) (by norm_num) 10 10
  have t11 := hB (-588959.826542) (by norm_num) 11 9
  have t12 := hB (-368805.2285737) (by norm_num) 12 8
  have t13 := hB (-190481.1378144) (by norm_num) 13 7
  have t14 := hB (-97350.7904708) (by norm_num) 14 6
  have t15 := hB (-48859.86217056) (by norm_num) 15 5
  have t16 := hB (-18670.52660875) (by norm_num) 16 4
  have t17 := hB (-4152.2564614) (by norm_num) 17 3
  have t18 := hB (-360.0764983) (by norm_num) 18 2
  have t19 := hB (-4.2161466) (by norm_num) 19 1
  have t20 : (-5.79844019 : ℝ) * x ^ 20 ≤ 0 :=
    mul_nonpos_of_nonpos_of_nonneg (by norm_num) (pow_nonneg h0 20)
  linarith [t00, t01, t02, t03, t04, t05, t06, t07, t08, t09, t10, t11,
    t12, t13, t14, t15, t16, t17, t18, t19, t20, key]

lemma gyroid_poly_antitoneOn :
    AntitoneOn (fun x : ℝ => polyval gyroid_polynomial_constants x)
      (Set.Icc 0 1) := by
  apply antitoneOn_of_deriv_nonpos (convex_Icc 0 1)
  · exact (continuous_iff_continuousAt.mpr fun x =>
      (gyroid_hasDerivAt x).continuousAt).continuousOn
  · intro x _
    exact (gyroid_hasDerivAt x).differentiableAt.differentiableWithinAt
  · intro x hx
    rw [(gyroid_hasDerivAt x).deriv]
    rw [interior_Icc] at hx
    exact gyroid_deriv_nonpos (le_of_lt hx.1) (le_of_lt hx.2)

/-! ## C3 — porosity range validation -/

/-- C3 (counterexample): the diamond family's porosity-to-isovalue map
does NOT fail for porosity `-1 < 0`; `np.interp` silently clamps to the
low-porosity endpoint isovalue `1.41421356` (the function is total and
cannot raise). -/
theorem c3_counterexample :
    _diamond_porosity_to_t_value (-1) = 1.41421356 := by
  rw [_diamond_porosity_to_t_value, diamond_table_eq]
  show interp (-1) ((0.0, 1.41421356) :: diamond_table_pairs.tail) = 1.41421356
  exact interp_le_first (-1) 0.0 1.41421356 _ (by norm_num)

/-- C3 (amended): only the gyroid family's `porosity_to_isovalue` fails
for porosity outside `[0, 1]` (raising `ValueError`, never clamping) and
returns the calibrated polynomial value inside; the diamond family
performs no range check at all and silently clamps to the endpoint
isovalues `±1.41421356` outside `[0, 1]`. -/
theorem c3_porosity_range_handling :
    (∀ porosity : ℝ, porosity < 0 ∨ porosity > 1 →
      _gyroid_porosity_to_t_value porosity = .error .valueError) ∧
    (∀ porosity : ℝ, 0 ≤ porosity → porosity ≤ 1 →
      _gyroid_porosity_to_t_value porosity =
        .ok (polyval gyroid_polynomial_constants porosity)) ∧
    (∀ porosity : ℝ, porosity ≤ 0 →
      _diamond_porosity_to_t_value porosity = 1.41421356) ∧
    (∀ porosity : ℝ, 1 < porosity →
      _diamond_porosity_to_t_value porosity = -1.41421356) := by
  refine ⟨?_, ?_, ?_, ?_⟩
  · intro porosity h
    rw [_gyroid_porosity_to_t_value, if_pos h]
  · intro porosity h0 h1
    rw [_gyroid_porosity_to_t_value, if_neg (by push_neg; exact ⟨h0, h1⟩)]
  · intro porosity h
    rw [_diamond_porosity_to_t_value, diamond_table_eq]
    show interp porosity ((0.0, 1.41421356) :: diamond_table_pairs.tail) =
      1.41421356
    exact interp_le_first porosity 0.0 1.41421356 _ (by norm_num; exact h)
  · intro porosity hp
    rw [_diamond_porosity_to_t_value, diamond_table_eq]
    have h := interp_above porosity diamond_table_pairs.tail 0.0 1.41421356
      1.0 (-1.41421356) ?_ ?_
    · show interp porosity ((0.0, 1.41421356) :: diamond_table_pairs.tail) = _
      exact h
    · intro u hu
      have := diamond_table_x_le_one u hu
      linarith
    · rfl

/-- C3 (witness): concrete instances of every part of
`c3_porosity_range_handling`. -/
theorem c3_porosity_range_handling_witness :
    ((2:ℝ) < 0 ∨ (2:ℝ) > 1) ∧
    _gyroid_porosity_to_t_value 2 = .error .valueError ∧
    ((0:ℝ) ≤ 0.5 ∧ (0.5:ℝ) ≤ 1) ∧
    _gyroid_porosity_to_t_value 0.5 =
      .ok (polyval gyroid_polynomial_constants 0.5) ∧
    ((-2:ℝ) ≤ 0) ∧ _diamond_porosity_to_t_value (-2) = 1.41421356 ∧
    ((1:ℝ) < 2) ∧ _diamond_porosity_to_t_value 2 = -1.41421356 :=
  ⟨by norm_num, c3_porosity_range_handling.1 2 (by norm_num),
   ⟨by norm_num, by norm_num⟩,
   c3_porosity_range_handling.2.1 0.5 (by norm_num) (by norm_num),
   by norm_num, c3_porosity_range_handling.2.2.1 (-2) (by norm_num),
   by norm_num, c3_porosity_range_handling.2.2.2 2 (by norm_num)⟩

/-! ## C4 — monotonicity of the porosity-to-isovalue maps -/

/-- C4 (counterexample): the porosity-to-isovalue map is NOT
non-decreasing: for the gyroid family it falls from `1.51588868` at
porosity `0` to `-1.51589191` at porosity `1`. -/
theorem c4_counterexample :
    ¬ ((Except.toOption (_gyroid_porosity_to_t_value 0)).getD 0 ≤
       (Except.toOption (_gyroid_porosity_to_t_value 1)).getD 0) := by
  rw [_gyroid_porosity_to_t_value, _gyroid_porosity_to_t_value]
  norm_num [polyval, gyroid_polynomial_constants, Except.toOption,
    Option.getD]

/-- C4 (amended): the porosity-to-isovalue map of each family is
monotonically non-INCREASING: antitone on `[0, 1]` for the gyroid's
9th-degree polynomial (by an exact Bernstein-coefficient certificate for
its derivative) and globally antitone for the diamond's lookup-table
interpolation. -/
theorem c4_porosity_to_isovalue_antitone :
    (∀ p1 p2 : ℝ, 0 ≤ p1 → p1 ≤ p2 → p2 ≤ 1 →
      polyval gyroid_polynomial_constants p2 ≤
        polyval gyroid_polynomial_constants p1) ∧
    (∀ p1 p2 : ℝ, p1 ≤ p2 →
      _diamond_porosity_to_t_value p2 ≤ _diamond_porosity_to_t_value p1) := by
  constructor
  · intro p1 p2 h0 h12 h2
    exact gyroid_poly_antitoneOn ⟨h0, by linarith⟩ ⟨by linarith, h2⟩ h12
  · intro p1 p2 h12
    rw [_diamond_porosity_to_t_value, _diamond_porosity_to_t_value,
      diamond_table_eq]
    exact interp_anti diamond_table_pairs diamond_table_x_chain
      diamond_table_f_chain p1 p2 h12

/-- C4 (witness): the antitone statement applied at the endpoints
`p1 = 0 ≤ p2 = 1`. -/
theorem c4_porosity_to_isovalue_antitone_witness :
    ((0:ℝ) ≤ 0 ∧ (0:ℝ) ≤ 1 ∧ (1:ℝ) ≤ 1) ∧
    polyval gyroid_polynomial_constants 1 ≤
      polyval gyroid_polynomial_constants 0 ∧
    _diamond_porosity_to_t_value 1 ≤ _diamond_porosity_to_t_value 0 :=
  ⟨⟨le_rfl, by norm_num, le_rfl⟩,
   c4_porosity_to_isovalue_antitone.1 0 1 le_rfl (by norm_num) le_rfl,
   c4_porosity_to_isovalue_antitone.2 0 1 (by norm_num)⟩

/-! ## C5 — mutual exclusion of the thickness-control parameters -/

/-- The gyroid field at the origin is `-t`: all cross terms of the gyroid
expression vanish there for every wavelength and rotation. -/
lemma gyroid_field_zero (lx ly lz tx ty tz t : ℝ) :
    gyroid_field lx ly lz tx ty tz t ![0, 0, 0] = -t := by
  simp [gyroid_field, Matrix.vecMul, Matrix.dotProduct, Fin.sum_univ_three]

/-- C5: supplying more than one of {porosity, isovalue, sheet_thickness}
with a non-default value (porosity ≠ 0.5, isovalue ≠ None,
sheet_thickness ≠ None) always fails with `ValueError` — for
`gyroid_function` (porosity together with isovalue) and for
`sheet_gyroid_function` (any two of the three). -/
theorem c5_exclusive_thickness_control :
    (∀ lx ly lz tx ty tz porosity v : ℝ, porosity ≠ 0.5 →
      gyroid_function lx ly lz tx ty tz porosity (some v) =
        .error .valueError) ∧
    (∀ lx ly lz tx ty tz porosity : ℝ,
      ∀ isovalue sheet_thickness : Option ℝ,
      (porosity ≠ 0.5 ∧ isovalue.isSome) ∨
        (porosity ≠ 0.5 ∧ sheet_thickness.isSome) ∨
        (isovalue.isSome ∧ sheet_thickness.isSome) →
      sheet_gyroid_function lx ly lz tx ty tz porosity isovalue
        sheet_thickness = .error .valueError) := by
  constructor
  · intro lx ly lz tx ty tz porosity v hp
    rw [gyroid_function]
    simp only [if_pos hp]
  · intro lx ly lz tx ty tz porosity isovalue sheet_thickness h
    rcases isovalue with _ | v <;> rcases sheet_thickness with _ | th
    · simp at h
    · have hp : porosity ≠ 0.5 := by
        rcases h with ⟨hp, hs⟩ | ⟨hp, _⟩ | ⟨hs, _⟩
        · simp at hs
        · exact hp
        · simp at hs
      simp only [sheet_gyroid_function]
      rw [_sheet_thickness_to_t_value]
      by_cases hc : th / ((lx + ly + lz) / 3) ≤ 0 ∨
          th / ((lx + ly + lz) / 3) ≥ 0.88
      · rw [if_pos hc]
      · rw [if_neg hc]
        dsimp only
        unfold sheet_gyroid_from_isovalue
        by_cases hv : interp (th / ((lx + ly + lz) / 3))
            (thickness_normalized.zip isovalues) ≤ 0
        · rw [if_pos hv]
        · rw [if_neg hv, if_pos hp]
    · have hp : porosity ≠ 0.5 := by
        rcases h with ⟨hp, _⟩ | ⟨hp, hs⟩ | ⟨_, hs⟩
        · exact hp
        · exact hp
        · simp at hs
      simp only [sheet_gyroid_function]
      unfold sheet_gyroid_from_isovalue
      by_cases hv : v ≤ 0
      · rw [if_pos hv]
      · rw [if_neg hv, if_pos hp]
    · rfl

/-- C5 (witness): a porosity+isovalue gyroid call and an
isovalue+thickness sheet-gyroid call, both failing. -/
theorem c5_exclusive_thickness_control_witness :
    ((0.3:ℝ) ≠ 0.5) ∧
    gyroid_function 1 1 1 0 0 0 0.3 (some 1) = .error .valueError ∧
    ((some (1:ℝ)).isSome ∧ (some (0.2:ℝ)).isSome) ∧
    sheet_gyroid_function 1 1 1 0 0 0 0.5 (some 1) (some 0.2) =
      .error .valueError :=
  ⟨by norm_num,
   c5_exclusive_thickness_control.1 1 1 1 0 0 0 0.3 1 (by norm_num),
   ⟨rfl, rfl⟩,
   c5_exclusive_thickness_control.2 1 1 1 0 0 0 0.5 (some 1) (some 0.2)
     (Or.inr (Or.inr ⟨rfl, rfl⟩))⟩

/-! ## C6 — the sheet-gyroid built from a target isovalue -/

/-- C6 (counterexample): the sheet-gyroid field is NOT the pointwise
subtraction `f_outer(p) - f_inner(p)`: at wavelengths `2π`, no rotation,
isovalue `1` and the origin, the returned field evaluates to `-1/2`
(the CSG difference `max(f_outer, -f_inner)`) while the pointwise
subtraction is `-1` (it would be the constant `-v` everywhere, a field
with no surface at all). -/
theorem c6_counterexample :
    (sheet_gyroid_function (2 * Real.pi) (2 * Real.pi) (2 * Real.pi) 0 0 0
        0.5 (some 1) none).map (fun f => f ![0, 0, 0]) ≠
      .ok (gyroid_field (2 * Real.pi) (2 * Real.pi) (2 * Real.pi) 0 0 0
            (1 / 2) ![0, 0, 0] -
          gyroid_field (2 * Real.pi) (2 * Real.pi) (2 * Real.pi) 0 0 0
            (-(1 / 2)) ![0, 0, 0]) := by
  have h1 : ¬ ((1:ℝ) ≤ 0) := by norm_num
  simp only [sheet_gyroid_function, sheet_gyroid_from_isovalue, if_neg h1,
    gyroid_function, sdf_difference]
  norm_num [gyroid_field_zero, Except.map, sdf_difference]

/-- C6 (amended): the sheet-gyroid constructed from a target isovalue `v`
(porosity left at its default `0.5`) fails with `ValueError` iff `v ≤ 0`,
and otherwise returns the pointwise CSG difference
`max(f_outer(p), -f_inner(p))` where `f_outer` is the gyroid field at
isovalue `+v/2` and `f_inner` at `-v/2`, with the same wavelengths and
rotation for both. -/
theorem c6_sheet_gyroid_csg_difference (lx ly lz tx ty tz v : ℝ) :
    sheet_gyroid_function lx ly lz tx ty tz 0.5 (some v) none =
      if v ≤ 0 then .error .valueError
      else .ok (fun p =>
        max (gyroid_field lx ly lz tx ty tz (v / 2) p)
            (-(gyroid_field lx ly lz tx ty tz (-(v / 2)) p))) := by
  by_cases hv : v ≤ 0
  · simp [sheet_gyroid_function, sheet_gyroid_from_isovalue, hv]
  · simp [sheet_gyroid_function, sheet_gyroid_from_isovalue, hv,
      gyroid_function, sdf_difference]
    rfl

/-! ## C8 — thickness-to-isovalue calibration range -/

/-- C8: `_sheet_thickness_to_t_value` fails with `ValueError` iff the
normalized thickness `t/λ` is outside the open interval `(0, 0.88)` and
otherwise interpolates the fixed calibration table; the sheet-gyroid
thickness branch normalizes by the average wavelength, emits its
non-fatal anisotropy warning exactly when the wavelengths differ, and the
end-to-end call with `sheet_thickness = 0.9·λ` fails. -/
theorem c8_thickness_calibration :
    (∀ thickness lam : ℝ,
      0 < thickness / lam ∧ thickness / lam < 0.88 →
      _sheet_thickness_to_t_value thickness lam =
        .ok (interp (thickness / lam) (thickness_normalized.zip isovalues))) ∧
    (∀ thickness lam : ℝ, thickness / lam ≤ 0 ∨ 0.88 ≤ thickness / lam →
      _sheet_thickness_to_t_value thickness lam = .error .valueError) ∧
    (∀ lambda_x lambda_y lambda_z th : ℝ, lambda_x ≠ lambda_y →
      sheet_gyroid_emits_anisotropy_warning lambda_x lambda_y lambda_z none
        (some th)) ∧
    (∀ lam th : ℝ,
      ¬ sheet_gyroid_emits_anisotropy_warning lam lam lam none (some th)) ∧
    (∀ lam theta_x theta_y theta_z : ℝ, 0 < lam →
      sheet_gyroid_function lam lam lam theta_x theta_y theta_z 0.5 none
        (some (0.9 * lam)) = .error .valueError) := by
  refine ⟨?_, ?_, ?_, ?_, ?_⟩
  · intro thickness lam h
    rw [_sheet_thickness_to_t_value]
    rw [if_neg (by push_neg; exact ⟨by linarith [h.1], by linarith [h.2]⟩)]
  · intro thickness lam h
    rw [_sheet_thickness_to_t_value]
    rw [if_pos (by rcases h with h | h; exact Or.inl h; exact Or.inr h)]
  · intro lambda_x lambda_y lambda_z th hne
    exact ⟨rfl, by simp, Or.inl hne⟩
  · intro lam th h
    rcases h.2.2 with h' | h' | h' <;> exact h' rfl
  · intro lam theta_x theta_y theta_z hl
    simp only [sheet_gyroid_function]
    have hmean : (lam + lam + lam) / 3 = lam := by ring
    rw [hmean, _sheet_thickness_to_t_value]
    have ht : 0.9 * lam / lam = 0.9 := by
      rw [mul_div_assoc, div_self (ne_of_gt hl), mul_one]
    rw [if_pos (Or.inr (by rw [ht]; norm_num))]

/-- C8 (witness): concrete instances of every part of
`c8_thickness_calibration`, including the `0.9·λ` scenario at `λ = 10`. -/
theorem c8_thickness_calibration_witness :
    ((0:ℝ) < 0.44 / 1 ∧ (0.44:ℝ) / 1 < 0.88) ∧
    _sheet_thickness_to_t_value 0.44 1 =
      .ok (interp ((0.44:ℝ) / 1) (thickness_normalized.zip isovalues)) ∧
    ((1:ℝ) / 1 ≤ 0 ∨ (0.88:ℝ) ≤ 1 / 1) ∧
    _sheet_thickness_to_t_value 1 1 = .error .valueError ∧
    ((1:ℝ) ≠ 2) ∧
    sheet_gyroid_emits_anisotropy_warning 1 2 3 none (some 0.1) ∧
    (¬ sheet_gyroid_emits_anisotropy_warning 1 1 1 none (some 0.1)) ∧
    ((0:ℝ) < 10) ∧
    sheet_gyroid_function 10 10 10 0 0 0 0.5 none (some (0.9 * 10)) =
      .error .valueError :=
  ⟨⟨by norm_num, by norm_num⟩,
   c8_thickness_calibration.1 0.44 1 ⟨by norm_num, by norm_num⟩,
   Or.inr (by norm_num),
   c8_thickness_calibration.2.1 1 1 (Or.inr (by norm_num)),
   by norm_num,
   c8_thickness_calibration.2.2.1 1 2 3 0.1 (by norm_num),
   c8_thickness_calibration.2.2.2.1 1 0.1,
   by norm_num,
   c8_thickness_calibration.2.2.2.2 10 0 0 0 (by norm_num)⟩

/-! ## C2 — diamond_box never produces a field -/

/-- C2 (counterexample): not EVERY call fails with a `TypeError`: a
malformed `n_periods` tuple fails even earlier, with a `ValueError` from
the tuple-length check, before `diamond_function` is ever called. -/
theorem c2_counterexample :
    diamond_box 1 1 1 0 0 0 0.5 (.tuple [1, 2]) = .error .valueError ∧
      PyErr.valueError ≠ PyErr.typeError :=
  ⟨by norm_num [diamond_box, n_periods_normalize], by decide⟩

/-- C2 (amended): every call to `diamond_box` fails before producing a
field — with a `TypeError` whenever `n_periods` is an int or a length-3
tuple (the forwarded keyword arguments `theta_x`, `theta_y`, `theta_z` are
not accepted by `diamond_function`), and with a `ValueError` for a tuple
of any other length; no diamond structure can be composed through this
entry point. -/
theorem c2_diamond_box_always_fails :
    (∀ lx ly lz tx ty tz porosity : ℝ, ∀ n : NPeriods,
      ∃ e, diamond_box lx ly lz tx ty tz porosity n = .error e) ∧
    (∀ lx ly lz tx ty tz porosity : ℝ, ∀ k : ℤ,
      diamond_box lx ly lz tx ty tz porosity (.int k) = .error .typeError) ∧
    (∀ lx ly lz tx ty tz porosity : ℝ, ∀ l : List ℤ, l.length = 3 →
      diamond_box lx ly lz tx ty tz porosity (.tuple l) =
        .error .typeError) := by
  refine ⟨?_, ?_, ?_⟩
  · intro lx ly lz tx ty tz porosity n
    rcases n with k | l
    · exact ⟨.typeError, by (simp [diamond_box, n_periods_normalize]; decide)⟩
    · by_cases hl : l.length = 3
      · exact ⟨.typeError,
          by (simp [diamond_box, n_periods_normalize, hl]; decide)⟩
      · exact ⟨.valueError, by simp [diamond_box, n_periods_normalize, hl]⟩
  · intro lx ly lz tx ty tz porosity k
    simp [diamond_box, n_periods_normalize]
    decide
  · intro lx ly lz tx ty tz porosity l hl
    simp [diamond_box, n_periods_normalize, hl]
    decide

/-- C2 (witness): a call with a well-formed 3-tuple fails with
`TypeError`. -/
theorem c2_diamond_box_always_fails_witness :
    (([5, 6, 7] : List ℤ).length = 3) ∧
    diamond_box 1 1 1 0 0 0 0.5 (.tuple [5, 6, 7]) = .error .typeError ∧
    diamond_box 1 1 1 0 0 0 0.5 (.int 4) = .error .typeError :=
  ⟨rfl,
   c2_diamond_box_always_fails.2.2 1 1 1 0 0 0 0.5 [5, 6, 7] rfl,
   c2_diamond_box_always_fails.2.1 1 1 1 0 0 0 0.5 4⟩

/-! ## C10 — the domain composers -/

/-- C10 (counterexample): the claim fails for `diamond_box`: with the
well-formed 3-tuple `n_periods = (2, 3, 4)` the result is not the
box/field intersection but a `TypeError`. -/
theorem c10_counterexample :
    diamond_box 1 1 1 0 0 0 0.5 (.tuple [2, 3, 4]) = .error .typeError := by
  simp [diamond_box, n_periods_normalize]
  decide

/-- C10 (amended): for `gyroid_box` and `sheet_gyroid_box` the claim
holds — an integer `n_periods` is applied uniformly as `(n, n, n)`, a
3-tuple yields the boolean intersection of the periodic field with the
axis-aligned box of extents exactly `(λx·nx, λy·ny, λz·nz)` (for any valid
porosity), and a tuple of any other length is a `ValueError`; `diamond_box`
validates `n_periods` the same way but never reaches the intersection
(every such call fails with a `TypeError`, see C2). -/
theorem c10_box_composition :
    (∀ lx ly lz tx ty tz porosity : ℝ, ∀ n : ℤ,
      gyroid_box lx ly lz tx ty tz porosity (.int n) =
        gyroid_box lx ly lz tx ty tz porosity (.tuple [n, n, n])) ∧
    (∀ lx ly lz tx ty tz porosity : ℝ, ∀ l : List ℤ, l.length ≠ 3 →
      gyroid_box lx ly lz tx ty tz porosity (.tuple l) =
        .error .valueError) ∧
    (∀ lx ly lz tx ty tz porosity : ℝ, ∀ nx ny nz : ℤ,
      0 ≤ porosity → porosity ≤ 1 →
      gyroid_box lx ly lz tx ty tz porosity (.tuple [nx, ny, nz]) =
        .ok (sdf_intersection (sdf_box ![lx * nx, ly * ny, lz * nz])
          (gyroid_field lx ly lz tx ty tz
            (polyval gyroid_polynomial_constants porosity)))) ∧
    (∀ lx ly lz tx ty tz porosity : ℝ, ∀ n : ℤ,
      sheet_gyroid_box lx ly lz tx ty tz porosity (.int n) =
        sheet_gyroid_box lx ly lz tx ty tz porosity (.tuple [n, n, n])) ∧
    (∀ lx ly lz tx ty tz porosity : ℝ, ∀ l : List ℤ, l.length ≠ 3 →
      sheet_gyroid_box lx ly lz tx ty tz porosity (.tuple l) =
        .error .valueError) ∧
    (∀ lx ly lz tx ty tz porosity : ℝ, ∀ nx ny nz : ℤ,
      0 ≤ porosity → porosity ≤ 1 →
      sheet_gyroid_box lx ly lz tx ty tz porosity (.tuple [nx, ny, nz]) =
        .ok (sdf_intersection (sdf_box ![lx * nx, ly * ny, lz * nz])
          (sdf_difference
            (gyroid_field lx ly lz tx ty tz (polyval
              gyroid_polynomial_constants (0.5 - (1 - porosity) / 2)))
            (gyroid_field lx ly lz tx ty tz (polyval
              gyroid_polynomial_constants (0.5 + (1 - porosity) / 2)))))) := by
  refine ⟨?_, ?_, ?_, ?_, ?_, ?_⟩
  · intro lx ly lz tx ty tz porosity n
    rfl
  · intro lx ly lz tx ty tz porosity l hl
    simp [gyroid_box, n_periods_normalize, hl]
  · intro lx ly lz tx ty tz porosity nx ny nz h0 h1
    have hok : _gyroid_porosity_to_t_value porosity =
        .ok (polyval gyroid_polynomial_constants porosity) := by
      rw [_gyroid_porosity_to_t_value, if_neg (by push_neg; exact ⟨h0, h1⟩)]
    simp [gyroid_box, n_periods_normalize, gyroid_function, hok]
  · intro lx ly lz tx ty tz porosity n
    rfl
  · intro lx ly lz tx ty tz porosity l hl
    simp [sheet_gyroid_box, n_periods_normalize, hl]
  · intro lx ly lz tx ty tz porosity nx ny nz h0 h1
    have hinner : _gyroid_porosity_to_t_value (0.5 + (1 - porosity) / 2) =
        .ok (polyval gyroid_polynomial_constants
          (0.5 + (1 - porosity) / 2)) := by
      rw [_gyroid_porosity_to_t_value,
        if_neg (by push_neg; constructor <;> linarith)]
    have houter : _gyroid_porosity_to_t_value (0.5 - (1 - porosity) / 2) =
        .ok (polyval gyroid_polynomial_constants
          (0.5 - (1 - porosity) / 2)) := by
      rw [_gyroid_porosity_to_t_value,
        if_neg (by push_neg; constructor <;> linarith)]
    simp [sheet_gyroid_box, n_periods_normalize, sheet_gyroid_function,
      gyroid_function, hinner, houter]

/-- C10 (witness): concrete instances of the hypotheses-bearing parts of
`c10_box_composition` at porosity `0.5` and periods `(2, 3, 4)` / a bad
2-tuple. -/
theorem c10_box_composition_witness :
    (([1, 2] : List ℤ).length ≠ 3) ∧
    gyroid_box 1 1 1 0 0 0 0.5 (.tuple [1, 2]) = .error .valueError ∧
    ((0:ℝ) ≤ 0.5 ∧ (0.5:ℝ) ≤ 1) ∧
    gyroid_box 1 2 3 10 20 30 0.5 (.tuple [2, 3, 4]) =
      .ok (sdf_intersection (sdf_box ![1 * (2:ℤ), 2 * (3:ℤ), 3 * (4:ℤ)])
        (gyroid_field 1 2 3 10 20 30
          (polyval gyroid_polynomial_constants 0.5))) ∧
    sheet_gyroid_box 1 1 1 0 0 0 0.5 (.tuple [1, 2]) = .error .valueError ∧
    sheet_gyroid_box 1 2 3 10 20 30 0.5 (.tuple [2, 3, 4]) =
      .ok (sdf_intersection (sdf_box ![1 * (2:ℤ), 2 * (3:ℤ), 3 * (4:ℤ)])
        (sdf_difference
          (gyroid_field 1 2 3 10 20 30 (polyval
            gyroid_polynomial_constants (0.5 - (1 - 0.5) / 2)))
          (gyroid_field 1 2 3 10 20 30 (polyval
            gyroid_polynomial_constants (0.5 + (1 - 0.5) / 2))))) :=
  ⟨by decide,
   c10_box_composition.2.1 1 1 1 0 0 0 0.5 [1, 2] (by decide),
   ⟨by norm_num, by norm_num⟩,
   c10_box_composition.2.2.1 1 2 3 10 20 30 0.5 2 3 4 (by norm_num)
     (by norm_num),
   c10_box_composition.2.2.2.2.1 1 1 1 0 0 0 0.5 [1, 2] (by decide),
   c10_box_composition.2.2.2.2.2 1 2 3 10 20 30 0.5 2 3 4 (by norm_num)
     (by norm_num)⟩

/-! ## C7 — sign and memory-order convention of the sampler -/

lemma getD_range_map {α : Type} (f : ℕ → α) (n m : ℕ) (d : α) (hm : m < n) :
    ((List.range n).map f).getD m d = f m := by
  rw [List.getD_eq_getElem?_getD, List.getElem?_map, List.getElem?_range hm]
  rfl

/-- Decomposition of a Fortran-order (first index fastest) linear index. -/
lemma fortran_decomp (nx ny nz i j k : ℕ) (hi : i < nx) (hj : j < ny)
    (hk : k < nz) :
    (i + nx * j + nx * ny * k) % nx = i ∧
    (i + nx * j + nx * ny * k) / nx % ny = j ∧
    (i + nx * j + nx * ny * k) / (nx * ny) = k ∧
    i + nx * j + nx * ny * k < nx * ny * nz := by
  have hnx : 0 < nx := by omega
  have hny : 0 < ny := by omega
  have hxy : 0 < nx * ny := Nat.mul_pos hnx hny
  have h1 : i + nx * j + nx * ny * k = i + nx * (j + ny * k) := by ring
  have h2 : i + nx * j + nx * ny * k = (i + nx * j) + nx * ny * k := by ring
  have hlt : i + nx * j < nx * ny := by
    have ha : i + nx * j < nx * (j + 1) := by
      have : nx * (j + 1) = nx + nx * j := by ring
      omega
    have hb : nx * (j + 1) ≤ nx * ny := Nat.mul_le_mul_left nx hj
    omega
  refine ⟨?_, ?_, ?_, ?_⟩
  · rw [h1, Nat.add_mul_mod_self_left, Nat.mod_eq_of_lt hi]
  · rw [h1, Nat.add_mul_div_left _ _ hnx, Nat.div_eq_of_lt hi, Nat.zero_add,
      Nat.add_mul_mod_self_left, Nat.mod_eq_of_lt hj]
  · rw [h2, Nat.add_mul_div_left _ _ hxy, Nat.div_eq_of_lt hlt, Nat.zero_add]
  · have ha : i + nx * j + nx * ny * k < nx * ny * (k + 1) := by
      have : nx * ny * (k + 1) = nx * ny + nx * ny * k := by ring
      omega
    have hb : nx * ny * (k + 1) ≤ nx * ny * nz := Nat.mul_le_mul_left _ hk
    omega

/-- Decomposition of a C-order (last index fastest) linear index. -/
lemma c_order_decomp (nx ny nz i j k : ℕ) (hi : i < nx) (hj : j < ny)
    (hk : k < nz) :
    (i * (ny * nz) + j * nz + k) / (ny * nz) = i ∧
    (i * (ny * nz) + j * nz + k) / nz % ny = j ∧
    (i * (ny * nz) + j * nz + k) % nz = k ∧
    i * (ny * nz) + j * nz + k < nx * ny * nz := by
  have hny : 0 < ny := by omega
  have hnz : 0 < nz := by omega
  have hyz : 0 < ny * nz := Nat.mul_pos hny hnz
  have h1 : i * (ny * nz) + j * nz + k = k + nz * (j + ny * i) := by ring
  have h2 : i * (ny * nz) + j * nz + k = (j * nz + k) + ny * nz * i := by ring
  have hlt : j * nz + k < ny * nz := by
    have ha : j * nz + k < (j + 1) * nz := by
      have : (j + 1) * nz = j * nz + nz := by ring
      omega
    have hb : (j + 1) * nz ≤ ny * nz := Nat.mul_le_mul_right nz hj
    omega
  refine ⟨?_, ?_, ?_, ?_⟩
  · rw [h2, Nat.add_mul_div_left _ _ hyz, Nat.div_eq_of_lt hlt, Nat.zero_add]
  · rw [h1, Nat.add_mul_div_left _ _ hnz, Nat.div_eq_of_lt hk, Nat.zero_add,
      Nat.add_mul_mod_self_left, Nat.mod_eq_of_lt hj]
  · rw [h1, Nat.add_mul_mod_self_left, Nat.mod_eq_of_lt hk]
  · have ha : i * (ny * nz) + j * nz + k < ny * nz * (i + 1) := by
      have : ny * nz * (i + 1) = ny * nz * i + ny * nz := by ring
      have hc : i * (ny * nz) = ny * nz * i := by ring
      omega
    have hb : ny * nz * (i + 1) ≤ ny * nz * nx := Nat.mul_le_mul_left _ hi
    have hc : ny * nz * nx = nx * ny * nz := by ring
    omega

/-- C7 (counterexample): the flattened scalar array is NOT ordered with
the first sampled axis varying slowest: on the grid `X = [0, 1]`,
`Y = [0]`, `Z = [0, 1]` with `f(p) = x + 2z`, flat position 1 holds `-1`
(the value of `-f` at `(1, 0, 0)`, first axis FASTEST), not `-2` (the
value of `-f` at `(0, 0, 1)`, which first-axis-slowest ordering would
place there). -/
theorem c7_counterexample :
    (mc_scalar_array (fun p => p 0 + 2 * p 2) [0, 1] [0] [0, 1]).getD 1 0 ≠
      -((fun p : Fin 3 → ℝ => p 0 + 2 * p 2) ![(0:ℝ), 0, 1]) := by
  norm_num [mc_scalar_array, fortran_flatten, mc_scalar_values,
    cartesian_product, List.range_succ, List.getD]

/-- C7 (amended): the flattened scalar array handed to the extraction
routine is the negation of the field values sampled on the grid, ordered
with the first sampled axis varying FASTEST (Fortran/column-major order:
entry `i + nx·j + nx·ny·k` is `-f(X[i], Y[j], Z[k])`), explicitly
reordered from the natural C evaluation order in which the first axis
varies slowest. -/
theorem c7_scalar_array_negated_fortran (f : SDF3) (X Y Z : List ℝ)
    (i j k : ℕ) (hi : i < X.length) (hj : j < Y.length) (hk : k < Z.length) :
    (mc_scalar_array f X Y Z).getD
        (i + X.length * j + X.length * Y.length * k) 0 =
      -(f ![X.getD i 0, Y.getD j 0, Z.getD k 0]) := by
  obtain ⟨hm1, hm2, hm3, hmlt⟩ :=
    fortran_decomp X.length Y.length Z.length i j k hi hj hk
  rw [mc_scalar_array, fortran_flatten, getD_range_map _ _ _ _ hmlt,
    hm1, hm2, hm3]
  obtain ⟨hc1, hc2, hc3, hclt⟩ :=
    c_order_decomp X.length Y.length Z.length i j k hi hj hk
  rw [mc_scalar_values, cartesian_product, List.map_map,
    getD_range_map _ _ _ _ hclt]
  simp only [Function.comp_apply]
  rw [hc1, hc2, hc3]

/-- C7 (witness): the Fortran-order statement applied on the concrete grid
`X = [0, 1]`, `Y = [0]`, `Z = [0, 1]` at `(i, j, k) = (1, 0, 1)`. -/
theorem c7_scalar_array_negated_fortran_witness :
    (1 < ([0, 1] : List ℝ).length ∧ 0 < ([0] : List ℝ).length ∧
      1 < ([0, 1] : List ℝ).length) ∧
    (mc_scalar_array (fun p => p 0 + 2 * p 2) [0, 1] [0] [0, 1]).getD
        (1 + ([0, 1] : List ℝ).length * 0 +
          ([0, 1] : List ℝ).length * ([0] : List ℝ).length * 1) 0 =
      -((fun p : Fin 3 → ℝ => p 0 + 2 * p 2)
        ![([0, 1] : List ℝ).getD 1 0, ([0] : List ℝ).getD 0 0,
          ([0, 1] : List ℝ).getD 1 0]) :=
  ⟨⟨by norm_num, by norm_num, by norm_num⟩,
   c7_scalar_array_negated_fortran (fun p => p 0 + 2 * p 2) [0, 1] [0]
     [0, 1] 1 0 1 (by norm_num) (by norm_num) (by norm_num)⟩

end SpartanTPMS
